import Mathlib

/-!
Verification of `convert_assets.py` (avatar-viewer): a batch FBX→GLB
converter and manifest generator.  We embed the text-parsing layer
(`parse_assimp_info`), the joint-counting heuristic (`count_real_joints`)
and the per-file orchestration of `main` (metric-source selection, joint
recomputation, warning rebuild, catalog-entry assembly) as pure Lean
functions.  Subprocess invocations are modelled by passing their results
(`ProcResult`, or `none` for a timeout/exception) as parameters.
-/

/-! ### Basic character/string machinery

Python string operations used by the script (`in`, `startswith`,
`endswith`, `strip`, `lower`, `replace`) and the regular-expression
fragments it relies on (literal search, `\s*`, `\d+`, `[^"]+`) are
modelled over `List Char`.
-/

/-- `listStarts p s` : `p` is a leading segment of `s` (Python `s.startswith(p)`). -/
def listStarts : List Char → List Char → Bool
  | [], _ => true
  | _ :: _, [] => false
  | a :: as, b :: bs => a == b && listStarts as bs

/-- `listHasSub p s` : `p` occurs contiguously inside `s` (Python `p in s`). -/
def listHasSub (p : List Char) : List Char → Bool
  | [] => listStarts p []
  | s@(_ :: rest) => listStarts p s || listHasSub p rest

/-- `listEnds p s` : `p` is a trailing segment of `s` (Python `s.endswith(p)`). -/
def listEnds (p s : List Char) : Bool :=
  listStarts p.reverse s.reverse

/-- The whitespace characters matched by Python's `\s` / `str.strip()` on ASCII text. -/
def isPySpace (c : Char) : Bool :=
  c == ' ' || c == '\t' || c == '\n' || c == '\r' || c == '\x0b' || c == '\x0c'

/-- ASCII decimal digit. -/
def isDigitCh (c : Char) : Bool :=
  '0' ≤ c && c ≤ '9'

/-- Numeric value of a digit run, as captured by `(\d+)` and converted by `int(...)`. -/
def natOfDigits (ds : List Char) : ℕ :=
  ds.foldl (fun acc c => acc * 10 + (c.toNat - '0'.toNat)) 0

/-- Strip a literal pattern from the front: `some` of the rest on success. -/
def stripPat : List Char → List Char → Option (List Char)
  | [], s => some s
  | _ :: _, [] => none
  | a :: as, b :: bs => if a == b then stripPat as bs else none

/-! ### Spec-level (propositional) forms of the string predicates -/

/-- `p` occurs contiguously inside `s`. -/
def SubStrOf (p s : List Char) : Prop :=
  ∃ l₁ l₂, s = l₁ ++ p ++ l₂

/-- `p` is a trailing segment of `s`. -/
def SuffixStrOf (p s : List Char) : Prop :=
  ∃ l₁, s = l₁ ++ p

theorem listStarts_iff (p : List Char) : ∀ s, listStarts p s = true ↔ ∃ t, s = p ++ t := by
  induction p with
  | nil =>
    intro s
    simp [listStarts]
  | cons a as ih =>
    intro s
    cases s with
    | nil => simp [listStarts]
    | cons b bs =>
      simp only [listStarts, Bool.and_eq_true, beq_iff_eq, ih bs, List.cons_append,
        List.cons.injEq]
      constructor
      · rintro ⟨rfl, t, rfl⟩
        exact ⟨t, rfl, rfl⟩
      · rintro ⟨t, rfl, rfl⟩
        exact ⟨rfl, t, rfl⟩

theorem listHasSub_iff (p : List Char) : ∀ s, listHasSub p s = true ↔ SubStrOf p s := by
  intro s
  induction s with
  | nil =>
    simp only [listHasSub, listStarts_iff, SubStrOf]
    constructor
    · rintro ⟨t, ht⟩
      exact ⟨[], t, by simpa using ht⟩
    · rintro ⟨l₁, l₂, h⟩
      rcases List.append_eq_nil.mp h.symm with ⟨h₁, h₂⟩
      rcases List.append_eq_nil.mp h₁ with ⟨rfl, rfl⟩
      exact ⟨l₂, by simp [h₂]⟩
  | cons c rest ih =>
    simp only [listHasSub, Bool.or_eq_true, listStarts_iff, ih, SubStrOf]
    constructor
    · rintro (⟨t, ht⟩ | ⟨l₁, l₂, rfl⟩)
      · exact ⟨[], t, by simpa using ht⟩
      · exact ⟨c :: l₁, l₂, rfl⟩
    · rintro ⟨l₁, l₂, h⟩
      cases l₁ with
      | nil =>
        exact Or.inl ⟨l₂, by simpa using h⟩
      | cons x xs =>
        simp only [List.cons_append, List.cons.injEq] at h
        exact Or.inr ⟨xs, l₂, h.2⟩

theorem listEnds_iff (p s : List Char) : listEnds p s = true ↔ SuffixStrOf p s := by
  simp only [listEnds, listStarts_iff, SuffixStrOf]
  constructor
  · rintro ⟨t, ht⟩
    refine ⟨t.reverse, ?_⟩
    have := congrArg List.reverse ht
    simpa using this
  · rintro ⟨l₁, rfl⟩
    exact ⟨l₁.reverse, by simp⟩

theorem listHasSub_single_iff (c : Char) (s : List Char) :
    listHasSub [c] s = true ↔ c ∈ s := by
  rw [listHasSub_iff]
  constructor
  · rintro ⟨l₁, l₂, rfl⟩
    simp
  · intro h
    rcases List.append_of_mem h with ⟨l₁, l₂, rfl⟩
    exact ⟨l₁, l₂, by simp⟩

/-! ### Decimal rounding

Python's `round(x, d)` (round-half-to-even on the decimal scaling) is
modelled exactly over `ℚ`. -/

/-- Round-half-to-even of a rational to an integer. -/
def rndHalfEven (x : ℚ) : ℤ :=
  let f := ⌊x⌋
  let r := x - (f : ℚ)
  if r < 1/2 then f
  else if 1/2 < r then f + 1
  else if Even f then f else f + 1

/-- `roundTo d x` models Python `round(x, d)` for `d ≥ 0`. -/
def roundTo (d : ℕ) (x : ℚ) : ℚ :=
  ((rndHalfEven (x * 10 ^ d) : ℤ) : ℚ) / 10 ^ d

theorem abs_rndHalfEven_sub_le (x : ℚ) : |((rndHalfEven x : ℤ) : ℚ) - x| ≤ 1/2 := by
  have hfl : ((⌊x⌋ : ℤ) : ℚ) ≤ x := Int.floor_le x
  have hfu : x < ((⌊x⌋ : ℤ) : ℚ) + 1 := Int.lt_floor_add_one x
  unfold rndHalfEven
  by_cases h₁ : x - ((⌊x⌋ : ℤ) : ℚ) < 1/2
  · simp only [h₁, if_true]
    rw [abs_le]
    constructor <;> linarith
  · simp only [h₁, if_false]
    by_cases h₂ : (1:ℚ)/2 < x - ((⌊x⌋ : ℤ) : ℚ)
    · simp only [h₂, if_true]
      rw [abs_le]
      push_cast
      constructor <;> linarith
    · simp only [h₂, if_false]
      have heq : x - ((⌊x⌋ : ℤ) : ℚ) = 1/2 := le_antisymm (not_lt.mp h₂) (not_lt.mp h₁)
      by_cases h₃ : Even ⌊x⌋
      · simp only [h₃, if_true]
        rw [abs_le]
        constructor <;> linarith
      · simp only [h₃, if_false]
        rw [abs_le]
        push_cast
        constructor <;> linarith

theorem abs_roundTo_sub_le (d : ℕ) (x : ℚ) :
    |roundTo d x - x| ≤ 1 / (2 * 10 ^ d) := by
  have hpow : (0:ℚ) < 10 ^ d := by positivity
  have h := abs_rndHalfEven_sub_le (x * 10 ^ d)
  unfold roundTo
  have hx : ((rndHalfEven (x * 10 ^ d) : ℤ) : ℚ) / 10 ^ d - x
      = (((rndHalfEven (x * 10 ^ d) : ℤ) : ℚ) - x * 10 ^ d) / 10 ^ d := by
    field_simp
    ring
  rw [hx, abs_div, abs_of_pos hpow, div_le_div_iff₀ hpow (by positivity)]
  calc |((rndHalfEven (x * 10 ^ d) : ℤ) : ℚ) - x * 10 ^ d| * (2 * 10 ^ d)
      ≤ (1/2) * (2 * 10 ^ d) := by
        apply mul_le_mul_of_nonneg_right h
        positivity
    _ = 1 * 10 ^ d := by ring

/-! ### Joint Classifier (`count_real_joints`, source lines 57–87)

The subprocess `assimp dump` is modelled by its outcome: `none` for a
timeout or exception, otherwise an exit code and the dump text. -/

structure ProcResult where
  returncode : ℤ
  stdout : String

/-- Match the node-declaration regex `<Node name="([^"]+)"` at the start of
the text: on success, the captured name and the text after the full match. -/
def matchNodeDecl (s : List Char) : Option (String × List Char) :=
  match stripPat "<Node name=\"".data s with
  | none => none
  | some t =>
    let nm := t.takeWhile (fun c => c != '"')
    if nm.isEmpty then none
    else
      match t.drop nm.length with
      | '"' :: r => some (String.mk nm, r)
      | _ => none

/-- `re.findall` of the node-declaration pattern: scan left to right,
emitting each non-overlapping match.  The fuel is the text length, which
bounds the number of scanning steps. -/
def extractNodeNames : ℕ → List Char → List String
  | 0, _ => []
  | _ + 1, [] => []
  | fuel + 1, s@(_ :: rest) =>
    match matchNodeDecl s with
    | some (nm, remaining) => nm :: extractNodeNames fuel remaining
    | none => extractNodeNames fuel rest

/-- All quoted node names of the dump text, in scan order (duplicates kept). -/
def extract_node_names (s : String) : List String :=
  extractNodeNames s.data.length s.data

/-- The per-name filter of `count_real_joints` (lines 70–84), in source order. -/
def keepJointName (name : String) : Bool :=
  if listHasSub "AssimpFbx".data name.data then false
  else if name == "RootNode" then false
  else if listEnds "_Geo".data name.data then false
  else if listEnds "_Att".data name.data then false
  else if listHasSub "/".data name.data || listHasSub "\\".data name.data then false
  else if name == "Texture" then false
  else true

/-- Size of the filtered set of distinct node names (lines 68–85). -/
def count_real_joints_text (s : String) : ℕ :=
  ((extract_node_names s).toFinset.filter (fun n => keepJointName n = true)).card

/-- `count_real_joints` (lines 57–87): `-1` when the dump subprocess raises
or times out (`none`) or exits non-zero; otherwise the filtered count. -/
def count_real_joints (dump : Option ProcResult) : ℤ :=
  match dump with
  | none => -1
  | some r => if r.returncode ≠ 0 then -1 else (count_real_joints_text r.stdout : ℤ)

/-- Spec-side characterisation of a "real joint" name: no decomposition
helper marker, not the root node, no mesh-data or attachment suffix, no
path separator, and not the literal name `Texture`. -/
def RealJoint (n : String) : Prop :=
  ¬ SubStrOf "AssimpFbx".data n.data ∧ n ≠ "RootNode" ∧
    ¬ SuffixStrOf "_Geo".data n.data ∧ ¬ SuffixStrOf "_Att".data n.data ∧
    ¬ ('/' ∈ n.data) ∧ ¬ ('\\' ∈ n.data) ∧ n ≠ "Texture"

/-! ### Metric Parser (`parse_assimp_info`, source lines 90–147) -/

structure MeshInfo where
  name : String
  vertices : ℕ
  bones : ℕ
  faces : ℕ

/-- One `re.search` attempt at a fixed position: literal label, then
`\s*`, then the capture `(\d+)`. -/
def matchLabelAt (label s : List Char) : Option ℕ :=
  match stripPat label s with
  | none => none
  | some t =>
    let digits := (t.dropWhile isPySpace).takeWhile isDigitCh
    if digits.isEmpty then none else some (natOfDigits digits)

/-- Leftmost match of `label\s*(\d+)` anywhere in the text (`re.search`),
the shape shared by all eight scalar-metric patterns. -/
def findLabelNum (label : List Char) : List Char → Option ℕ
  | [] => matchLabelAt label []
  | s@(_ :: rest) =>
    match matchLabelAt label s with
    | some n => some n
    | none => findLabelNum label rest

/-- A scalar metric: the first numeric capture for the label, or the zero
default when the label is not found (lines 110–113). -/
def getMetric (label : String) (s : String) : ℕ :=
  (findLabelNum label.data s.data).getD 0

/-- Drop everything up to and including the first occurrence of `p`;
`none` when `p` does not occur. -/
def afterFirst (p : List Char) : List Char → Option (List Char)
  | [] => stripPat p []
  | s@(_ :: rest) =>
    match stripPat p s with
    | some t => some t
    | none => afterFirst p rest

/-- The lazy capture `(.*?)(?=Named Materials:|$)` under DOTALL: everything
up to the first position where `Named Materials:` starts, the end of the
text, or a lone final newline. -/
def captureMeshBlock : List Char → List Char
  | [] => []
  | s@(c :: rest) =>
    if listStarts "Named Materials:".data s then []
    else if s == ['\n'] then []
    else c :: captureMeshBlock rest

/-- Python `str.strip()`. -/
def pyStrip (s : List Char) : List Char :=
  ((s.dropWhile isPySpace).reverse.dropWhile isPySpace).reverse

/-- Python `str.split("\n")`. -/
def splitLinesNl : List Char → List (List Char)
  | [] => [[]]
  | '\n' :: rest => [] :: splitLinesNl rest
  | c :: rest =>
    match splitLinesNl rest with
    | [] => [[c]]
    | l :: ls => (c :: l) :: ls

/-- `re.match` of the mesh-breakdown line pattern
`\s*\d+\s+\(([^)]+)\):\s*\[(\d+)\s*/\s*(\d+)\s*/\s*(\d+)\s*\|` (line 119). -/
def matchMeshLine (line : List Char) : Option MeshInfo :=
  let t0 := line.dropWhile isPySpace
  let idx := t0.takeWhile isDigitCh
  if idx.isEmpty then none else
  let t1 := t0.drop idx.length
  let sp := t1.takeWhile isPySpace
  if sp.isEmpty then none else
  match t1.drop sp.length with
  | '(' :: t3 =>
    let nm := t3.takeWhile (fun c => c != ')')
    if nm.isEmpty then none else
    match t3.drop nm.length with
    | ')' :: ':' :: t4 =>
      match t4.dropWhile isPySpace with
      | '[' :: t6 =>
        let d1 := t6.takeWhile isDigitCh
        if d1.isEmpty then none else
        match (t6.drop d1.length).dropWhile isPySpace with
        | '/' :: t8 =>
          let t9 := t8.dropWhile isPySpace
          let d2 := t9.takeWhile isDigitCh
          if d2.isEmpty then none else
          match (t9.drop d2.length).dropWhile isPySpace with
          | '/' :: t11 =>
            let t12 := t11.dropWhile isPySpace
            let d3 := t12.takeWhile isDigitCh
            if d3.isEmpty then none else
            match (t12.drop d3.length).dropWhile isPySpace with
            | '|' :: _ => some ⟨String.mk nm, natOfDigits d1, natOfDigits d2, natOfDigits d3⟩
            | _ => none
          | _ => none
        | _ => none
      | _ => none
    | _ => none
  | _ => none

/-- Mesh-breakdown extraction (lines 116–126): the block between the first
`Meshes:` line and `Named Materials:`/end of text, one mesh per matching
line, non-matching lines silently skipped. -/
def parseMeshes (s : String) : List MeshInfo :=
  match afterFirst "Meshes:".data s.data with
  | none => []
  | some t =>
    match afterFirst "\n".data t with
    | none => []
    | some u => (splitLinesNl (pyStrip (captureMeshBlock u))).filterMap matchMeshLine

/-- Insert a thousands separator before every third digit of the reversed
digit stream (Python's `{:,}` format). -/
def commaRevAux : List Char → ℕ → List Char
  | [], _ => []
  | c :: rest, i =>
    (if 0 < i ∧ i % 3 = 0 then [','] else []) ++ (c :: commaRevAux rest (i + 1))

/-- Python `f"{n:,}"` for a non-negative integer. -/
def fmtComma (n : ℕ) : String :=
  String.mk ((commaRevAux (Nat.toDigits 10 n).reverse 0).reverse)

/-- The budget warnings of the Metric Parser, in source order
(lines 138–145). -/
def mkWarnings (tf tv mc meshc : ℕ) : List String :=
  (if tf > 15000 then ["HIGH TRIANGLE COUNT: " ++ fmtComma tf ++ " (budget: 15,000)"] else [])
    ++ (if tv > 20000 then ["HIGH VERTEX COUNT: " ++ fmtComma tv ++ " (budget: 20,000)"] else [])
    ++ (if mc > 5 then ["MANY MATERIALS: " ++ Nat.repr mc ++ " (budget: 5)"] else [])
    ++ (if meshc > 20 then ["MANY MESHES: " ++ Nat.repr meshc ++ " (may cause draw call overhead)"] else [])

/-- The parsed metrics record. -/
structure Metrics where
  total_vertices : ℕ
  total_faces : ℕ
  mesh_count : ℕ
  node_count : ℕ
  max_depth : ℕ
  material_count : ℕ
  texture_count : ℕ
  memory_bytes : ℕ
  vertex_buffer_kb : ℚ
  index_buffer_kb : ℚ
  bone_matrices_kb : ℚ
  total_gpu_memory_kb : ℚ
  meshes : List MeshInfo
  warnings : List String

/-- `parse_assimp_info` (lines 90–147): scalar metrics by labelled search
with zero defaults, GPU cost model `vb = tv*64`, `ib = tf*3*4`,
`bm = nc*64` bytes converted to KB and rounded to 2 places, the mesh
breakdown, and the parse-time budget warnings. -/
def parse_assimp_info (s : String) : Metrics :=
  { total_vertices := getMetric "Vertices:" s
    total_faces := getMetric "Faces:" s
    mesh_count := getMetric "Meshes:" s
    node_count := getMetric "Nodes:" s
    max_depth := getMetric "Maximum depth" s
    material_count := getMetric "Materials:" s
    texture_count := getMetric "Textures (embed.):" s
    memory_bytes := getMetric "Memory consumption:" s
    vertex_buffer_kb := roundTo 2 (((getMetric "Vertices:" s * 64 : ℕ) : ℚ) / 1024)
    index_buffer_kb := roundTo 2 (((getMetric "Faces:" s * 3 * 4 : ℕ) : ℚ) / 1024)
    bone_matrices_kb := roundTo 2 (((getMetric "Nodes:" s * 64 : ℕ) : ℚ) / 1024)
    total_gpu_memory_kb :=
      roundTo 2 (((getMetric "Vertices:" s * 64 + getMetric "Faces:" s * 3 * 4
        + getMetric "Nodes:" s * 64 : ℕ) : ℚ) / 1024)
    meshes := parseMeshes s
    warnings := mkWarnings (getMetric "Faces:" s) (getMetric "Vertices:" s)
      (getMetric "Materials:" s) (getMetric "Meshes:" s) }

/-! ### Catalog Builder orchestration (`main`, source lines 189–288)

The per-file pipeline (categorisation, metric-source selection, joint
recomputation, warning rebuild, entry assembly) is embedded as a pure
function of the file's relative path, the precomputed lookup, and the
outcomes of the three possible subprocess invocations: `assimp info`,
the `assimp dump` made inside `analyze_fbx`, and the `assimp dump` made
by the always-recount step of line 242. -/

/-- Python `str.lower()` (ASCII). -/
def pyLower (s : String) : String :=
  String.mk (s.data.map Char.toLower)

/-- `categorize` (lines 27–34), on the path relative to the avatar dir. -/
def categorize (rel : String) : String :=
  let r := pyLower rel
  if listStarts "rigs/".data r.data then "rigs"
  else if listStarts "cage_deformer/cube/".data r.data then "cage_deformers"
  else "clothing"

/-- `SKIP_PREFIXES` (line 24). -/
def SKIP_PREFIXES : List String := ["cage_deformer/layered_clothing"]

/-- `should_skip` (lines 37–40). -/
def should_skip (rel : String) : Bool :=
  SKIP_PREFIXES.any (fun p => listStarts p.data (pyLower rel).data)

/-- `Path.name`: the final path component. -/
def lastComponent (rel : String) : String :=
  String.mk ((rel.data.reverse.takeWhile (fun c => c != '/')).reverse)

/-- `Path.stem`: the final component without its last extension (an
extension is a dot not in first or last position of the component). -/
def pathStem (rel : String) : String :=
  let nm := (lastComponent rel).data
  let rev := nm.reverse
  match rev.findIdx? (fun c => c == '.') with
  | none => String.mk nm
  | some j =>
    if 1 ≤ j ∧ j ≤ nm.length - 2 then String.mk ((rev.drop (j + 1)).reverse)
    else String.mk nm

/-- Strip one leading organisational marker, if present. -/
def stripNameMarker (p : String) (n : String) : String :=
  if listStarts p.data n.data then String.mk (n.data.drop p.data.length) else n

/-- `make_display_name` (lines 177–186). -/
def make_display_name (file_name : String) : String :=
  let n0 := pathStem file_name
  let n1 := stripNameMarker "LCL_" n0
  let n2 := stripNameMarker "LC_" n1
  String.mk (n2.data.map (fun c => if c == '_' then ' ' else c))

/-- A metrics-shaped record as a Python dict: every field may be absent
(`metrics.get(..., default)` supplies the defaults at use sites).
Precomputed records may carry any subset of fields. -/
structure MetricsDict where
  total_vertices : Option ℕ
  total_faces : Option ℕ
  mesh_count : Option ℕ
  node_count : Option ℕ
  max_depth : Option ℕ
  material_count : Option ℕ
  texture_count : Option ℕ
  file_size_mb : Option ℚ
  total_gpu_memory_kb : Option ℚ
  vertex_buffer_kb : Option ℚ
  index_buffer_kb : Option ℚ
  bone_matrices_kb : Option ℚ
  real_joint_count : Option ℤ
  meshes : Option (List MeshInfo)
  warnings : Option (List String)

/-- The `{"error": ...}` record of `analyze_fbx` (lines 157, 163): it
carries none of the metric keys. -/
def errorDict : MetricsDict :=
  { total_vertices := none, total_faces := none, mesh_count := none,
    node_count := none, max_depth := none, material_count := none,
    texture_count := none, file_size_mb := none, total_gpu_memory_kb := none,
    vertex_buffer_kb := none, index_buffer_kb := none, bone_matrices_kb := none,
    real_joint_count := none, meshes := none, warnings := none }

/-- The dict produced by a successful `analyze_fbx` (lines 159–161): all
parsed fields plus `real_joint_count`; no `file_size_mb` key. -/
def dictOfMetrics (m : Metrics) (rjc : ℤ) : MetricsDict :=
  { total_vertices := some m.total_vertices, total_faces := some m.total_faces,
    mesh_count := some m.mesh_count, node_count := some m.node_count,
    max_depth := some m.max_depth, material_count := some m.material_count,
    texture_count := some m.texture_count, file_size_mb := none,
    total_gpu_memory_kb := some m.total_gpu_memory_kb,
    vertex_buffer_kb := some m.vertex_buffer_kb,
    index_buffer_kb := some m.index_buffer_kb,
    bone_matrices_kb := some m.bone_matrices_kb,
    real_joint_count := some rjc, meshes := some m.meshes,
    warnings := some m.warnings }

/-- `analyze_fbx` (lines 150–163): on subprocess failure the error record,
otherwise the parsed metrics with the freshly counted joints. -/
def analyze_fbx (info dump : Option ProcResult) : MetricsDict :=
  match info with
  | none => errorDict
  | some r =>
    if r.returncode ≠ 0 then errorDict
    else dictOfMetrics (parse_assimp_info r.stdout) (count_real_joints dump)

/-- Metric-source selection (lines 232–237): the precomputed record keyed
by filename when one exists, else fresh analysis. -/
def selectMetrics (pre : Option MetricsDict) (info dump : Option ProcResult) : MetricsDict :=
  match pre with
  | some m => m
  | none => analyze_fbx info dump

/-- Joint-count selection (lines 239–242): the base record's value when
present and non-negative, else a fresh `count_real_joints` run. -/
def chooseJoints (m : MetricsDict) (dumpB : Option ProcResult) : ℤ :=
  let rj := m.real_joint_count.getD (-1)
  if rj < 0 then count_real_joints dumpB else rj

/-- The joint-budget warning string of line 248. -/
def jointWarning (rj : ℤ) : String :=
  "HIGH JOINT COUNT: " ++ toString rj ++ " (budget: 75)"

/-- Warning rebuild (lines 244–248): drop upstream warnings containing
`BONE COUNT`, then re-apply the joint-budget check. -/
def rebuild_warnings (ws : List String) (rj : ℤ) : List String :=
  if rj > 75 then
    ws.filter (fun w => !listHasSub "BONE COUNT".data w.data) ++ [jointWarning rj]
  else ws.filter (fun w => !listHasSub "BONE COUNT".data w.data)

/-- A warning string matching the bone/joint-count pattern. -/
def isJointCountWarning (w : String) : Bool :=
  listHasSub "BONE COUNT".data w.data || listHasSub "JOINT COUNT".data w.data

/-- One manifest entry (lines 252–272). -/
structure CatalogEntry where
  id : String
  name : String
  file : String
  category : String
  file_size_mb : ℚ
  total_vertices : ℕ
  total_faces : ℕ
  mesh_count : ℕ
  node_count : ℕ
  real_joint_count : ℤ
  max_depth : ℕ
  material_count : ℕ
  texture_count : ℕ
  total_gpu_memory_kb : ℚ
  vertex_buffer_kb : ℚ
  index_buffer_kb : ℚ
  bone_matrices_kb : ℚ
  meshes : List MeshInfo
  warnings : List String

/-- The per-file body of `main`'s loop for a successfully converted file
(lines 217–272), as a function of the precomputed lookup, the file's
relative path, and the three possible subprocess outcomes. -/
def processFile (precomputed : String → Option MetricsDict) (rel : String)
    (info dumpA dumpB : Option ProcResult) : CatalogEntry :=
  let fname := lastComponent rel
  let stem := pathStem rel
  let category := categorize rel
  let metrics := selectMetrics (precomputed fname) info dumpA
  let real_joints := chooseJoints metrics dumpB
  let warnings := rebuild_warnings (metrics.warnings.getD []) real_joints
  { id := stem
    name := make_display_name fname
    file := "models/" ++ category ++ "/" ++ stem ++ ".glb"
    category := category
    file_size_mb := roundTo 2 (metrics.file_size_mb.getD 0)
    total_vertices := metrics.total_vertices.getD 0
    total_faces := metrics.total_faces.getD 0
    mesh_count := metrics.mesh_count.getD 0
    node_count := metrics.node_count.getD 0
    real_joint_count := real_joints
    max_depth := metrics.max_depth.getD 0
    material_count := metrics.material_count.getD 0
    texture_count := metrics.texture_count.getD 0
    total_gpu_memory_kb := roundTo 1 (metrics.total_gpu_memory_kb.getD 0)
    vertex_buffer_kb := roundTo 1 (metrics.vertex_buffer_kb.getD 0)
    index_buffer_kb := roundTo 1 (metrics.index_buffer_kb.getD 0)
    bone_matrices_kb := roundTo 1 (metrics.bone_matrices_kb.getD 0)
    meshes := metrics.meshes.getD []
    warnings := warnings }

/-! ### Bridging lemmas -/

theorem keepJointName_iff (n : String) : keepJointName n = true ↔ RealJoint n := by
  have hsub := listHasSub_iff "AssimpFbx".data n.data
  have hgeo := listEnds_iff "_Geo".data n.data
  have hatt := listEnds_iff "_Att".data n.data
  have hslashdata : "/".data = ['/'] := rfl
  have hbackdata : "\\".data = ['\\'] := rfl
  have hsl : listHasSub "/".data n.data = true ↔ '/' ∈ n.data := by
    rw [hslashdata]; exact listHasSub_single_iff '/' n.data
  have hbk : listHasSub "\\".data n.data = true ↔ '\\' ∈ n.data := by
    rw [hbackdata]; exact listHasSub_single_iff '\\' n.data
  unfold keepJointName RealJoint
  split_ifs with h1 h2 h3 h4 h5 h6
  · simp only [false_iff]
    rintro ⟨a, -, -, -, -, -, -⟩
    exact a (hsub.mp h1)
  · simp only [false_iff]
    rintro ⟨-, b, -, -, -, -, -⟩
    exact b (by simpa using h2)
  · simp only [false_iff]
    rintro ⟨-, -, c, -, -, -, -⟩
    exact c (hgeo.mp h3)
  · simp only [false_iff]
    rintro ⟨-, -, -, d, -, -, -⟩
    exact d (hatt.mp h4)
  · simp only [false_iff]
    rintro ⟨-, -, -, -, e₁, e₂, -⟩
    rcases (by simpa using h5 :
        listHasSub "/".data n.data = true ∨ listHasSub "\\".data n.data = true) with h | h
    · exact e₁ (hsl.mp h)
    · exact e₂ (hbk.mp h)
  · simp only [false_iff]
    rintro ⟨-, -, -, -, -, -, g⟩
    exact g (by simpa using h6)
  · simp only [true_iff]
    exact ⟨fun hs => h1 (hsub.mpr hs), fun he => h2 (by simp [he]),
      fun hg => h3 (hgeo.mpr hg), fun ha => h4 (hatt.mpr ha),
      fun hm => h5 (by simp [hsl.mpr hm]),
      fun hm => h5 (by simp [hbk.mpr hm]),
      fun ht => h6 (by simp [ht])⟩

instance instDecidableRealJoint (n : String) : Decidable (RealJoint n) :=
  decidable_of_iff (keepJointName n = true) (keepJointName_iff n)

/-! ### Claim theorems -/

/-- C4: the Joint Classifier returns the number of distinct quoted node
names of the node-declaration pattern after the six exclusions
(decomposition-helper marker, root node, mesh-data suffix, attachment
suffix, path separator, literal `Texture`); in particular the scenario-B
dump naming exactly `Hips`, `Hips_$AssimpFbxNull$_Translation`,
`Mesh_Geo`, `RootNode`, `clothing/tex.png` yields a count of 1. -/
theorem c4_joint_classifier_filter :
    (∀ s : String,
      count_real_joints_text s
        = ((extract_node_names s).toFinset.filter RealJoint).card) ∧
    count_real_joints_text
      "<Node name=\"Hips\"> <Node name=\"Hips_$AssimpFbxNull$_Translation\"> <Node name=\"Mesh_Geo\"> <Node name=\"RootNode\"> <Node name=\"clothing/tex.png\">"
      = 1 := by
  constructor
  · intro s
    unfold count_real_joints_text
    congr 1
    exact Finset.filter_congr fun x _ => keepJointName_iff x
  · set_option maxRecDepth 400000 in decide

/-- C8: the Joint Classifier's count is invariant under reordering and
duplication of node-name occurrences: two dump texts whose node
declarations carry the same set of names get the same count. -/
theorem c8_joint_count_set_invariant (s₁ s₂ : String)
    (h : (extract_node_names s₁).toFinset = (extract_node_names s₂).toFinset) :
    count_real_joints_text s₁ = count_real_joints_text s₂ := by
  unfold count_real_joints_text
  rw [h]

theorem c8_witness :
    (extract_node_names "<Node name=\"Spine\"> <Node name=\"Head\">").toFinset
        = (extract_node_names "<Node name=\"Head\"> <Node name=\"Spine\"> <Node name=\"Head\">").toFinset
      ∧ count_real_joints_text "<Node name=\"Spine\"> <Node name=\"Head\">"
        = count_real_joints_text "<Node name=\"Head\"> <Node name=\"Spine\"> <Node name=\"Head\">" :=
  ⟨by set_option maxRecDepth 400000 in decide,
   c8_joint_count_set_invariant _ _ (by set_option maxRecDepth 400000 in decide)⟩

/-- C6: whenever the scene-graph dump fails (non-zero exit) or times
out/raises, the Joint Classifier returns the sentinel −1; otherwise it
returns the non-negative size of the filtered name set. -/
theorem c6_sentinel_on_failure (dump : Option ProcResult) :
    (dump = none → count_real_joints dump = -1) ∧
    (∀ r : ProcResult, dump = some r → r.returncode ≠ 0 → count_real_joints dump = -1) ∧
    (∀ r : ProcResult, dump = some r → r.returncode = 0 →
      count_real_joints dump = (count_real_joints_text r.stdout : ℤ) ∧
        0 ≤ count_real_joints dump) := by
  refine ⟨?_, ?_, ?_⟩
  · rintro rfl
    rfl
  · rintro r rfl hr
    simp [count_real_joints, hr]
  · rintro r rfl hr
    constructor
    · simp [count_real_joints, hr]
    · simp only [count_real_joints, hr]
      simp

theorem c6_witness :
    count_real_joints (some ⟨1, ""⟩) = -1 ∧ count_real_joints none = -1 ∧
      count_real_joints (some ⟨0, ""⟩) = 0 :=
  ⟨(c6_sentinel_on_failure (some ⟨1, ""⟩)).2.1 ⟨1, ""⟩ rfl (by decide),
   (c6_sentinel_on_failure none).1 rfl,
   (((c6_sentinel_on_failure (some ⟨0, ""⟩)).2.2 ⟨0, ""⟩ rfl rfl).1).trans (by decide)⟩

/-- C5: a labelled scalar metric whose label is not found in the
diagnostic text is left at its zero default, for each of the eight
labels, and the parser is a total function (it never raises). -/
theorem c5_missing_label_zero_default (s : String) :
    (findLabelNum "Vertices:".data s.data = none → (parse_assimp_info s).total_vertices = 0) ∧
    (findLabelNum "Faces:".data s.data = none → (parse_assimp_info s).total_faces = 0) ∧
    (findLabelNum "Meshes:".data s.data = none → (parse_assimp_info s).mesh_count = 0) ∧
    (findLabelNum "Nodes:".data s.data = none → (parse_assimp_info s).node_count = 0) ∧
    (findLabelNum "Maximum depth".data s.data = none → (parse_assimp_info s).max_depth = 0) ∧
    (findLabelNum "Materials:".data s.data = none → (parse_assimp_info s).material_count = 0) ∧
    (findLabelNum "Textures (embed.):".data s.data = none →
      (parse_assimp_info s).texture_count = 0) ∧
    (findLabelNum "Memory consumption:".data s.data = none →
      (parse_assimp_info s).memory_bytes = 0) := by
  refine ⟨?_, ?_, ?_, ?_, ?_, ?_, ?_, ?_⟩ <;>
    · intro h
      simp [parse_assimp_info, getMetric, h]

theorem c5_witness :
    (parse_assimp_info "").total_vertices = 0 ∧ (parse_assimp_info "").memory_bytes = 0 :=
  ⟨(c5_missing_label_zero_default "").1 (by decide),
   (c5_missing_label_zero_default "").2.2.2.2.2.2.2 (by decide)⟩

theorem gpu_total_tolerance (a b c : ℚ) :
    |roundTo 2 (a + b + c) - roundTo 1 (roundTo 2 a + roundTo 2 b + roundTo 2 c)| ≤ 7/100 := by
  have ha := abs_roundTo_sub_le 2 a
  have hb := abs_roundTo_sub_le 2 b
  have hc := abs_roundTo_sub_le 2 c
  have hs := abs_roundTo_sub_le 2 (a + b + c)
  have ht := abs_roundTo_sub_le 1 (roundTo 2 a + roundTo 2 b + roundTo 2 c)
  rw [abs_le] at ha hb hc hs ht ⊢
  norm_num at ha hb hc hs ht ⊢
  constructor <;> linarith

/-- C3: the GPU-memory fields of every parsed record follow the cost
model: `vertex_buffer_kb = round(tv*64/1024, 2)`,
`index_buffer_kb = round(tf*3*4/1024, 2)`,
`bone_matrices_kb = round(nc*64/1024, 2)`, and `total_gpu_memory_kb`
agrees with `round(vkb + ikb + bkb, 1)` within rounding tolerance
(at most 7/100 apart). -/
theorem c3_gpu_memory_model (s : String) :
    (parse_assimp_info s).vertex_buffer_kb
        = roundTo 2 ((((parse_assimp_info s).total_vertices : ℚ) * 64) / 1024) ∧
    (parse_assimp_info s).index_buffer_kb
        = roundTo 2 ((((parse_assimp_info s).total_faces : ℚ) * 3 * 4) / 1024) ∧
    (parse_assimp_info s).bone_matrices_kb
        = roundTo 2 ((((parse_assimp_info s).node_count : ℚ) * 64) / 1024) ∧
    |(parse_assimp_info s).total_gpu_memory_kb
        - roundTo 1 ((parse_assimp_info s).vertex_buffer_kb
            + (parse_assimp_info s).index_buffer_kb
            + (parse_assimp_info s).bone_matrices_kb)| ≤ 7/100 := by
  refine ⟨?_, ?_, ?_, ?_⟩
  · simp only [parse_assimp_info]
    congr 1
    push_cast
    ring
  · simp only [parse_assimp_info]
    congr 1
    push_cast
    ring
  · simp only [parse_assimp_info]
    congr 1
    push_cast
    ring
  · simp only [parse_assimp_info]
    have hsplit :
        (((getMetric "Vertices:" s * 64 + getMetric "Faces:" s * 3 * 4
            + getMetric "Nodes:" s * 64 : ℕ) : ℚ) / 1024)
          = ((getMetric "Vertices:" s * 64 : ℕ) : ℚ) / 1024
            + ((getMetric "Faces:" s * 3 * 4 : ℕ) : ℚ) / 1024
            + ((getMetric "Nodes:" s * 64 : ℕ) : ℚ) / 1024 := by
      push_cast
      ring
    rw [hsplit]
    exact gpu_total_tolerance _ _ _

/-- C2 (amended): a diagnostic text parsing to 25000 vertices, 16000
faces and 6 materials, with no other threshold exceeded, yields exactly
the three warnings high triangle count, high vertex count, many
materials — triangle before vertex, the source's evaluation order. -/
theorem c2_scenario_warning_order (s : String)
    (hv : (parse_assimp_info s).total_vertices = 25000)
    (hf : (parse_assimp_info s).total_faces = 16000)
    (hm : (parse_assimp_info s).material_count = 6)
    (hmesh : (parse_assimp_info s).mesh_count ≤ 20) :
    (parse_assimp_info s).warnings =
      ["HIGH TRIANGLE COUNT: 16,000 (budget: 15,000)",
       "HIGH VERTEX COUNT: 25,000 (budget: 20,000)",
       "MANY MATERIALS: 6 (budget: 5)"] := by
  have hw : (parse_assimp_info s).warnings
      = mkWarnings (parse_assimp_info s).total_faces (parse_assimp_info s).total_vertices
          (parse_assimp_info s).material_count (parse_assimp_info s).mesh_count := by
    simp [parse_assimp_info]
  have hnm : ¬ ((parse_assimp_info s).mesh_count > 20) := by omega
  rw [hw, hv, hf, hm]
  unfold mkWarnings
  rw [if_pos (show (16000:ℕ) > 15000 by norm_num),
    if_pos (show (25000:ℕ) > 20000 by norm_num),
    if_pos (show (6:ℕ) > 5 by norm_num),
    if_neg hnm]
  decide

set_option maxRecDepth 1000000 in
/-- C2 is refuted as stated: on the scenario-A text the parser's warnings
come in the order triangle, vertex, materials — not vertex first as
claimed. -/
theorem c2_counterexample :
    (parse_assimp_info "Vertices: 25000\nFaces: 16000\nMaterials: 6").total_vertices = 25000 ∧
    (parse_assimp_info "Vertices: 25000\nFaces: 16000\nMaterials: 6").total_faces = 16000 ∧
    (parse_assimp_info "Vertices: 25000\nFaces: 16000\nMaterials: 6").material_count = 6 ∧
    (parse_assimp_info "Vertices: 25000\nFaces: 16000\nMaterials: 6").mesh_count = 0 ∧
    (parse_assimp_info "Vertices: 25000\nFaces: 16000\nMaterials: 6").warnings ≠
      ["HIGH VERTEX COUNT: 25,000 (budget: 20,000)",
       "HIGH TRIANGLE COUNT: 16,000 (budget: 15,000)",
       "MANY MATERIALS: 6 (budget: 5)"] := by
  decide

set_option maxRecDepth 1000000 in
theorem c2_witness :
    (parse_assimp_info "Vertices: 25000\nFaces: 16000\nMaterials: 6").warnings =
      ["HIGH TRIANGLE COUNT: 16,000 (budget: 15,000)",
       "HIGH VERTEX COUNT: 25,000 (budget: 20,000)",
       "MANY MATERIALS: 6 (budget: 5)"] :=
  c2_scenario_warning_order _ (by decide) (by decide) (by decide) (by decide)

theorem jointWarning_has_pattern (rj : ℤ) :
    listHasSub "JOINT COUNT".data (jointWarning rj).data = true := by
  rw [listHasSub_iff]
  refine ⟨"HIGH ".data, (": " ++ toString rj ++ " (budget: 75)").data, ?_⟩
  unfold jointWarning
  simp only [String.data_append]
  simp

/-- C1 (amended): the warning rebuild discards exactly the upstream
warnings containing `BONE COUNT` before re-applying the joint-budget
check; provided no upstream warning contains `JOINT COUNT`, the rebuilt
list holds at most one joint-count warning, present iff the
authoritative real joint count exceeds 75, and that warning carries the
authoritative count, never a stale precomputed value. -/
theorem c1_joint_warning_rebuild (ws : List String) (rj : ℤ)
    (hup : ∀ w ∈ ws, listHasSub "JOINT COUNT".data w.data = false) :
    ((rebuild_warnings ws rj).filter (fun w => isJointCountWarning w)).length ≤ 1 ∧
    (rj > 75 →
      (rebuild_warnings ws rj).filter (fun w => isJointCountWarning w) = [jointWarning rj]) ∧
    (rj ≤ 75 →
      (rebuild_warnings ws rj).filter (fun w => isJointCountWarning w) = []) := by
  have hkeptnil : (ws.filter (fun w => !listHasSub "BONE COUNT".data w.data)).filter
      (fun w => isJointCountWarning w) = [] := by
    rw [List.filter_eq_nil_iff]
    intro w hw
    rw [List.mem_filter] at hw
    obtain ⟨hmem, hbone⟩ := hw
    have hbone' : listHasSub "BONE COUNT".data w.data = false := by simpa using hbone
    simp [isJointCountWarning, hbone', hup w hmem]
  have hjw : isJointCountWarning (jointWarning rj) = true := by
    simp [isJointCountWarning, jointWarning_has_pattern rj]
  by_cases h : rj > 75
  · refine ⟨?_, fun _ => ?_, fun hle => absurd h (not_lt.mpr hle)⟩
    · rw [rebuild_warnings, if_pos h, List.filter_append, hkeptnil]
      simp [hjw]
    · rw [rebuild_warnings, if_pos h, List.filter_append, hkeptnil]
      simp [hjw]
  · refine ⟨?_, fun hgt => absurd hgt h, fun _ => ?_⟩
    · rw [rebuild_warnings, if_neg h, hkeptnil]
      simp
    · rw [rebuild_warnings, if_neg h, hkeptnil]

/-- C1 is refuted as stated: a stale upstream joint warning (text
`HIGH JOINT COUNT: 99 (budget: 75)`) is not discarded by the
`BONE COUNT` filter, so with authoritative count 100 the rebuilt list
holds two joint-count warnings, one of them stale. -/
theorem c1_counterexample :
    ¬ (((rebuild_warnings ["HIGH JOINT COUNT: 99 (budget: 75)"] 100).filter
        (fun w => isJointCountWarning w)).length ≤ 1) := by
  decide

theorem c1_witness :
    (rebuild_warnings ["HIGH BONE COUNT: 90 (budget: 75)"] 80).filter
        (fun w => isJointCountWarning w) = [jointWarning 80] :=
  (c1_joint_warning_rebuild ["HIGH BONE COUNT: 90 (budget: 75)"] 80
    (by decide)).2.1 (by decide)

/-- C7: the Catalog Builder takes the precomputed record keyed by
filename as the base metrics record when one exists, otherwise the
fresh analysis; the entry is built from that base record; and the joint
count used equals the base record's value exactly when that value is
present and non-negative, otherwise it is the fresh Joint Classifier
result. -/
theorem c7_metric_source_selection (pc : String → Option MetricsDict) (rel : String)
    (info dumpA dumpB : Option ProcResult) :
    (∀ m, pc (lastComponent rel) = some m →
      selectMetrics (pc (lastComponent rel)) info dumpA = m) ∧
    (pc (lastComponent rel) = none →
      selectMetrics (pc (lastComponent rel)) info dumpA = analyze_fbx info dumpA) ∧
    (processFile pc rel info dumpA dumpB).total_vertices
      = (selectMetrics (pc (lastComponent rel)) info dumpA).total_vertices.getD 0 ∧
    (processFile pc rel info dumpA dumpB).warnings
      = rebuild_warnings
          ((selectMetrics (pc (lastComponent rel)) info dumpA).warnings.getD [])
          (processFile pc rel info dumpA dumpB).real_joint_count ∧
    (processFile pc rel info dumpA dumpB).real_joint_count
      = chooseJoints (selectMetrics (pc (lastComponent rel)) info dumpA) dumpB ∧
    (∀ r : ℤ,
      (selectMetrics (pc (lastComponent rel)) info dumpA).real_joint_count = some r →
        0 ≤ r → (processFile pc rel info dumpA dumpB).real_joint_count = r) ∧
    ((selectMetrics (pc (lastComponent rel)) info dumpA).real_joint_count = none →
      (processFile pc rel info dumpA dumpB).real_joint_count = count_real_joints dumpB) ∧
    (∀ r : ℤ,
      (selectMetrics (pc (lastComponent rel)) info dumpA).real_joint_count = some r →
        r < 0 →
          (processFile pc rel info dumpA dumpB).real_joint_count
            = count_real_joints dumpB) := by
  refine ⟨?_, ?_, ?_, ?_, ?_, ?_, ?_, ?_⟩
  · intro m hm
    simp [selectMetrics, hm]
  · intro hm
    simp [selectMetrics, hm]
  · simp [processFile]
  · simp [processFile]
  · simp [processFile]
  · intro r hr hge
    have hnl : ¬ (r < 0) := not_lt.mpr hge
    simp [processFile, chooseJoints, hr, hnl]
  · intro hr
    simp [processFile, chooseJoints, hr]
  · intro r hr hlt
    simp [processFile, chooseJoints, hr, hlt]

theorem c7_witness :
    (processFile
      (fun s => if s = "Rig.fbx"
        then some ⟨none, none, none, none, none, none, none, none, none, none, none, none,
          some 5, none, none⟩
        else none)
      "rigs/Rig.fbx" none none none).real_joint_count = 5 :=
  (c7_metric_source_selection
    (fun s => if s = "Rig.fbx"
      then some ⟨none, none, none, none, none, none, none, none, none, none, none, none,
        some 5, none, none⟩
      else none)
    "rigs/Rig.fbx" none none none).2.2.2.2.2.1 5 (by decide) (by decide)

/-- C9: when the joint count for a file resolves to the sentinel −1, the
catalog entry records −1 verbatim and no joint-count warning is
appended — the rebuilt warnings are exactly the `BONE COUNT`-filtered
upstream list, since `−1 > 75` is false. -/
theorem c9_sentinel_propagates (pc : String → Option MetricsDict) (rel : String)
    (info dumpA dumpB : Option ProcResult)
    (h : chooseJoints (selectMetrics (pc (lastComponent rel)) info dumpA) dumpB = -1) :
    (processFile pc rel info dumpA dumpB).real_joint_count = -1 ∧
    (processFile pc rel info dumpA dumpB).warnings
      = ((selectMetrics (pc (lastComponent rel)) info dumpA).warnings.getD []).filter
          (fun w => !listHasSub "BONE COUNT".data w.data) := by
  have hng : ¬ ((-1 : ℤ) > 75) := by norm_num
  constructor
  · simp [processFile, h]
  · simp [processFile, h, rebuild_warnings, hng]

theorem c9_witness :
    (processFile (fun _ => none) "x/A.fbx" none none none).real_joint_count = -1 ∧
    (processFile (fun _ => none) "x/A.fbx" none none none).warnings = [] := by
  have h := c9_sentinel_propagates (fun _ => none) "x/A.fbx" none none none (by decide)
  exact ⟨h.1, h.2.trans (by decide)⟩

/-- C10: every entry's id is the input file's stem and its file field is
exactly `models/<category>/<id>.glb`; hence two input files with the
same stem and category get the same id and output path, whatever their
full paths and metric sources. -/
theorem c10_output_path_collision (pc : String → Option MetricsDict) (rel : String)
    (info dumpA dumpB : Option ProcResult) :
    (processFile pc rel info dumpA dumpB).id = pathStem rel ∧
    (processFile pc rel info dumpA dumpB).file
      = "models/" ++ categorize rel ++ "/" ++ pathStem rel ++ ".glb" ∧
    (∀ (pc₂ : String → Option MetricsDict) (rel₂ : String)
        (info₂ dumpA₂ dumpB₂ : Option ProcResult),
      pathStem rel₂ = pathStem rel → categorize rel₂ = categorize rel →
        (processFile pc₂ rel₂ info₂ dumpA₂ dumpB₂).id
            = (processFile pc rel info dumpA dumpB).id ∧
          (processFile pc₂ rel₂ info₂ dumpA₂ dumpB₂).file
            = (processFile pc rel info dumpA dumpB).file) := by
  refine ⟨by simp [processFile], by simp [processFile], ?_⟩
  intro pc₂ rel₂ info₂ dumpA₂ dumpB₂ hstem hcat
  constructor
  · simp [processFile, hstem]
  · simp [processFile, hstem, hcat]

theorem c10_witness :
    "clothing/a/Shirt.fbx" ≠ "clothing/b/Shirt.fbx" ∧
    (processFile (fun _ => none) "clothing/a/Shirt.fbx" none none none).file
      = (processFile (fun _ => none) "clothing/b/Shirt.fbx" none none none).file := by
  refine ⟨by decide, ?_⟩
  exact ((c10_output_path_collision (fun _ => none) "clothing/b/Shirt.fbx"
    none none none).2.2 (fun _ => none) "clothing/a/Shirt.fbx" none none none
    (by decide) (by decide)).2
